import Mathlib

/-
Verification of the tower-defense simulation engine.

Numbers: the source is JavaScript, where every numeric value is an IEEE
double.  The embedding models numbers as exact rationals (ℚ); `Math.floor`
becomes `Int.floor`.  `Math.sqrt` is not rational, so every function that
needs the Euclidean metric is parameterised by an abstract distance
function `dist : Vec2 → Vec2 → ℚ`; all theorems hold for every such
function, in particular for the Euclidean one.  Fresh entity ids produced
with `Date.now()`/`Math.random()` are modelled by id-generator parameters.

JS truthiness: `a || b` yields `b` when `a` is `undefined` or `0`; optional
numeric fields are modelled as `Option ℚ` and `a || b` as `jsOr a b`.
-/

-- ===== Basic geometry (engine/grid.ts) =====

structure Vec2 where
  x : ℚ
  y : ℚ
deriving DecidableEq, Repr

structure GridCoord where
  x : ℤ
  y : ℤ
deriving DecidableEq, Repr

inductive TileType
  | buildable
  | path
  | blocked
deriving DecidableEq, Repr

structure Tile where
  coord : GridCoord
  type : TileType
  pathIndex : Option ℕ
deriving DecidableEq, Repr

/-- Source `gridToWorld(coord, tileSize)`: centre of the tile. -/
def gridToWorld (coord : GridCoord) (tileSize : ℚ) : Vec2 :=
  ⟨(coord.x : ℚ) * tileSize + tileSize / 2, (coord.y : ℚ) * tileSize + tileSize / 2⟩

/-- Source `distanceSquared(a, b) = dx*dx + dy*dy` (exact in ℚ). -/
def distanceSquared (a b : Vec2) : ℚ :=
  (a.x - b.x) * (a.x - b.x) + (a.y - b.y) * (a.y - b.y)

/-- JS `a || b` on an optional number: `b` when `a` is `undefined` or `0`. -/
def jsOr (a : Option ℚ) (b : ℚ) : ℚ :=
  match a with
  | none => b
  | some v => if v = 0 then b else v

/-- JS truthiness of an optional number: false for `undefined` and `0`. -/
def jsTruthy (a : Option ℚ) : Bool :=
  match a with
  | none => false
  | some v => decide (v ≠ 0)

/-- Source `calculatePathLength(pathCoords, tileSize)`: sum of the distances between
consecutive path-tile world centres; 0 for paths of fewer than 2 points.
`dist` abstracts the `Math.sqrt`-based Euclidean `distance`. -/
def calculatePathLength (dist : Vec2 → Vec2 → ℚ) (pathCoords : List GridCoord)
    (tileSize : ℚ) : ℚ :=
  if pathCoords.length < 2 then 0
  else
    (pathCoords.zip pathCoords.tail).foldl
      (fun total pq => total + dist (gridToWorld pq.1 tileSize) (gridToWorld pq.2 tileSize)) 0

/-- Walk of the cumulative-segment-length loop of `getPositionOnPath`: `prev`
is the previous segment endpoint, the list holds the remaining endpoints.
Falls back to the last point when the target distance is never reached. -/
def segmentWalk (dist : Vec2 → Vec2 → ℚ) (targetDistance : ℚ) :
    ℚ → Vec2 → List Vec2 → Vec2
  | _, prev, [] => prev
  | currentDistance, prev, curr :: rest =>
    let segmentLength := dist prev curr
    if currentDistance + segmentLength ≥ targetDistance then
      let segmentProgress := (targetDistance - currentDistance) / segmentLength
      ⟨prev.x + (curr.x - prev.x) * segmentProgress,
       prev.y + (curr.y - prev.y) * segmentProgress⟩
    else
      segmentWalk dist targetDistance (currentDistance + segmentLength) curr rest

/-- Source `getPositionOnPath(pathCoords, progress, tileSize)`: maps normalised
progress to a world position; clamps below 0 to the path start and at or
above 1 to the path end. -/
def getPositionOnPath (dist : Vec2 → Vec2 → ℚ) (pathCoords : List GridCoord)
    (progress : ℚ) (tileSize : ℚ) : Vec2 :=
  match pathCoords with
  | [] => ⟨0, 0⟩
  | p :: rest =>
    if rest.isEmpty ∨ progress ≤ 0 then gridToWorld p tileSize
    else if 1 ≤ progress then
      gridToWorld ((p :: rest).getLast (List.cons_ne_nil p rest)) tileSize
    else
      let totalLength := calculatePathLength dist (p :: rest) tileSize
      let targetDistance := progress * totalLength
      segmentWalk dist targetDistance 0 (gridToWorld p tileSize)
        (rest.map (fun c => gridToWorld c tileSize))

-- ===== Catalog (engine/definitions.ts) =====

inductive TowerType
  | arrow
  | cannon
  | frost
deriving DecidableEq, Repr

inductive MobType
  | normal
  | fast
  | tank
  | flying
deriving DecidableEq, Repr

structure TowerUpgrade where
  tier : ℕ
  cost : ℚ
  damageMultiplier : ℚ
  rangeMultiplier : Option ℚ
  attackRateMultiplier : Option ℚ
deriving DecidableEq, Repr

/-- Static tower table entry (display-only `name`/`description` omitted). -/
structure TowerDefinition where
  type : TowerType
  baseCost : ℚ
  range : ℚ
  damage : ℚ
  attackRate : ℚ
  projectileSpeed : Option ℚ
  splashRadius : Option ℚ
  slowDuration : Option ℚ
  slowAmount : Option ℚ
  upgrades : List TowerUpgrade
deriving DecidableEq, Repr

def arrowDef : TowerDefinition :=
  { type := .arrow, baseCost := 25, range := 3.5, damage := 15, attackRate := 2.5,
    projectileSpeed := some 8, splashRadius := none, slowDuration := none, slowAmount := none,
    upgrades := [⟨2, 30, 1.6, some 1.2, some 1.3⟩, ⟨3, 60, 2.2, some 1.3, some 1.4⟩] }

def cannonDef : TowerDefinition :=
  { type := .cannon, baseCost := 50, range := 2.5, damage := 45, attackRate := 0.8,
    projectileSpeed := some 6, splashRadius := some 1.5, slowDuration := none, slowAmount := none,
    upgrades := [⟨2, 75, 1.5, some 1.2, some 1.2⟩, ⟨3, 120, 2.0, some 1.3, some 1.3⟩] }

def frostDef : TowerDefinition :=
  { type := .frost, baseCost := 40, range := 3.0, damage := 20, attackRate := 1.5,
    projectileSpeed := some 10, splashRadius := none, slowDuration := some 3, slowAmount := some 0.5,
    upgrades := [⟨2, 50, 1.4, some 1.15, some 1.3⟩, ⟨3, 80, 1.8, some 1.25, some 1.4⟩] }

def towerDefOf : TowerType → TowerDefinition
  | .arrow => arrowDef
  | .cannon => cannonDef
  | .frost => frostDef

def towerKey : TowerType → String
  | .arrow => "arrow"
  | .cannon => "cannon"
  | .frost => "frost"

/-- Source `TOWER_DEFINITIONS` is a `Record<string, TowerDefinition>` with exactly
the keys `arrow`, `cannon`, `frost`; any other key yields `undefined`. -/
def TOWER_DEFINITIONS (towerType : String) : Option TowerDefinition :=
  if towerType = "arrow" then some arrowDef
  else if towerType = "cannon" then some cannonDef
  else if towerType = "frost" then some frostDef
  else none

/-- The mutable `stats` record of `calculateTowerStats` before `dps` is added. -/
structure TowerStatsAcc where
  damage : ℚ
  range : ℚ
  attackRate : ℚ
  cost : ℚ
deriving DecidableEq, Repr

structure TowerStats where
  damage : ℚ
  range : ℚ
  attackRate : ℚ
  cost : ℚ
  dps : ℚ
deriving DecidableEq, Repr

/-- Body of `calculateTowerStats` for a known definition: apply the upgrade
records for every tier from 2 up to the requested tier.  `List.range' 2
(tier - 1)` is `[2, …, tier]` (empty for `tier ≤ 1`), matching the JS loop
`for (let t = 2; t <= tier; t++)`.  `u.rangeMultiplier || 1` and
`u.attackRateMultiplier || 1` become `jsOr`. -/
def calculateTowerStatsD (d : TowerDefinition) (tier : ℕ) : TowerStats :=
  let stats := (List.range' 2 (tier - 1)).foldl
    (fun s t =>
      match d.upgrades.find? (fun u => u.tier == t) with
      | some u =>
        { damage := s.damage * u.damageMultiplier,
          range := s.range * jsOr u.rangeMultiplier 1,
          attackRate := s.attackRate * jsOr u.attackRateMultiplier 1,
          cost := s.cost + u.cost }
      | none => s)
    { damage := d.damage, range := d.range, attackRate := d.attackRate,
      cost := d.baseCost : TowerStatsAcc }
  { damage := stats.damage, range := stats.range, attackRate := stats.attackRate,
    cost := stats.cost, dps := stats.damage * stats.attackRate }

/-- Source `calculateTowerStats(towerType, tier)`: throws `Unknown tower type` for an
unrecognised type string, modelled as `Except`. -/
def calculateTowerStats (towerType : String) (tier : ℕ) : Except String TowerStats :=
  match TOWER_DEFINITIONS towerType with
  | none => .error ("Unknown tower type: " ++ towerType)
  | some d => .ok (calculateTowerStatsD d tier)

/-- Typed shortcut used where the caller holds a `TowerType` (the store and
the simulation call the catalog only with the three known type tags). -/
def calculateTowerStatsT (t : TowerType) (tier : ℕ) : TowerStats :=
  calculateTowerStatsD (towerDefOf t) tier

/-- Source `calculateUpgradeCost(towerType, fromTier, toTier)`: 0 for an unknown
type or `fromTier ≥ toTier`, else the cost of the upgrade record whose
`tier` equals `toTier` (`upgrade?.cost || 0`). -/
def calculateUpgradeCost (towerType : String) (fromTier toTier : ℕ) : ℚ :=
  match TOWER_DEFINITIONS towerType with
  | none => 0
  | some d =>
    if fromTier ≥ toTier then 0
    else ((d.upgrades.find? (fun u => u.tier == toTier)).map TowerUpgrade.cost).getD 0

def calculateUpgradeCostT (t : TowerType) (fromTier toTier : ℕ) : ℚ :=
  calculateUpgradeCost (towerKey t) fromTier toTier

/-- Catalog `calculateSellValue(towerType, tier)`: 70% of the accumulated
`calculateTowerStats` cost, floored. -/
def calculateSellValue (towerType : String) (tier : ℕ) : Except String ℤ :=
  (calculateTowerStats towerType tier).map (fun s => ⌊s.cost * 0.7⌋)

/-- Static mob table entry (display-only `name` omitted). -/
structure MobDefinition where
  type : MobType
  baseHp : ℚ
  baseSpeed : ℚ
  armor : ℚ
  bounty : ℚ
  hpMultiplier : ℚ
  speedMultiplier : Option ℚ
deriving DecidableEq, Repr

def normalDef : MobDefinition :=
  { type := .normal, baseHp := 40, baseSpeed := 1.5, armor := 0, bounty := 5,
    hpMultiplier := 1.2, speedMultiplier := none }

def fastDef : MobDefinition :=
  { type := .fast, baseHp := 25, baseSpeed := 2.8, armor := 0, bounty := 8,
    hpMultiplier := 1.15, speedMultiplier := some 1.03 }

def tankDef : MobDefinition :=
  { type := .tank, baseHp := 150, baseSpeed := 0.8, armor := 8, bounty := 20,
    hpMultiplier := 1.25, speedMultiplier := none }

def flyingDef : MobDefinition :=
  { type := .flying, baseHp := 35, baseSpeed := 2.5, armor := 0, bounty := 15,
    hpMultiplier := 1.18, speedMultiplier := some 1.04 }

def mobDefOf : MobType → MobDefinition
  | .normal => normalDef
  | .fast => fastDef
  | .tank => tankDef
  | .flying => flyingDef

def mobKey : MobType → String
  | .normal => "normal"
  | .fast => "fast"
  | .tank => "tank"
  | .flying => "flying"

/-- Source `MOB_DEFINITIONS`: record with exactly the keys `normal`, `fast`,
`tank`, `flying`. -/
def MOB_DEFINITIONS (mobType : String) : Option MobDefinition :=
  if mobType = "normal" then some normalDef
  else if mobType = "fast" then some fastDef
  else if mobType = "tank" then some tankDef
  else if mobType = "flying" then some flyingDef
  else none

structure MobStats where
  hp : ℤ
  maxHp : ℤ
  speed : ℚ
  armor : ℚ
  bounty : ℚ
  type : MobType
deriving DecidableEq, Repr

/-- Body of `calculateMobStats` for a known definition.  The wave exponent
`waveNumber - 1` is ℕ-subtraction; callers use wave numbers ≥ 1. -/
def calculateMobStatsD (d : MobDefinition) (waveNumber : ℕ) : MobStats :=
  let waveMultiplier := waveNumber - 1
  let hp := ⌊d.baseHp * d.hpMultiplier ^ waveMultiplier⌋
  { hp := hp, maxHp := hp,
    speed := d.baseSpeed * (jsOr d.speedMultiplier 1) ^ waveMultiplier,
    armor := d.armor, bounty := d.bounty, type := d.type }

/-- Source `calculateMobStats(mobType, waveNumber)`: throws `Unknown mob type` for
an unrecognised type string. -/
def calculateMobStats (mobType : String) (waveNumber : ℕ) : Except String MobStats :=
  match MOB_DEFINITIONS mobType with
  | none => .error ("Unknown mob type: " ++ mobType)
  | some d => .ok (calculateMobStatsD d waveNumber)

def calculateMobStatsT (t : MobType) (waveNumber : ℕ) : MobStats :=
  calculateMobStatsD (mobDefOf t) waveNumber

/-- Source `calculateDamage(baseDamage, armor) = max(1, baseDamage - armor)`. -/
def calculateDamage (baseDamage armor : ℚ) : ℚ :=
  max 1 (baseDamage - armor)

/-- Source `canBeSlowed()`: currently every mob type is affected. -/
def canBeSlowed : Bool := true

-- ===== Status effects (engine/effects.ts) =====

structure MobStatus where
  slowUntil : Option ℚ
  slowMultiplier : Option ℚ
deriving DecidableEq, Repr

structure Mob where
  id : String
  pos : Vec2
  hp : ℚ
  maxHp : ℚ
  speed : ℚ
  armor : ℚ
  type : MobType
  bounty : ℚ
  pathProgress : ℚ
  status : MobStatus
  reachedEnd : Bool
deriving DecidableEq, Repr

/-- Source `applySlow(mob, slowMultiplier, duration, currentTime)`: extends
`slowUntil` to `max(current || 0, now + duration)` and takes the stronger
multiplier `min(new, current || 1)`. -/
def applySlow (mob : Mob) (slowMultiplier duration currentTime : ℚ) : Mob :=
  if !canBeSlowed then mob
  else
    let newSlowUntil := currentTime + duration
    let existingMultiplier := jsOr mob.status.slowMultiplier 1
    let finalMultiplier := min slowMultiplier existingMultiplier
    { mob with
      status :=
        { slowUntil := some (max (jsOr mob.status.slowUntil 0) newSlowUntil),
          slowMultiplier := some finalMultiplier } }

/-- Source `updateMobEffects(mob, currentTime)`: clears an expired slow
(`if (slowUntil && currentTime >= slowUntil)`). -/
def updateMobEffects (mob : Mob) (currentTime : ℚ) : Mob :=
  match mob.status.slowUntil with
  | some u =>
    if u ≠ 0 ∧ currentTime ≥ u then
      { mob with status := { slowUntil := none, slowMultiplier := none } }
    else mob
  | none => mob

/-- Source `getEffectiveSpeed(mob, currentTime)`: slowed speed while the slow is
active, floored at 10% of the mob's own base speed. -/
def getEffectiveSpeed (mob : Mob) (currentTime : ℚ) : ℚ :=
  let speed :=
    match mob.status.slowUntil, mob.status.slowMultiplier with
    | some u, some m =>
      if u ≠ 0 ∧ currentTime < u ∧ m ≠ 0 then mob.speed * m else mob.speed
    | _, _ => mob.speed
  max speed (mob.speed * 0.1)

structure DamageResult where
  mob : Mob
  actualDamage : ℚ
  killed : Bool
deriving DecidableEq, Repr

/-- Source `applyDamage(mob, baseDamage)`: armor-reduced damage, hp floored at 0,
kill flag when the new hp is exactly 0. -/
def applyDamage (mob : Mob) (baseDamage : ℚ) : DamageResult :=
  let actualDamage := calculateDamage baseDamage mob.armor
  let newHp := max 0 (mob.hp - actualDamage)
  { mob := { mob with hp := newHp }, actualDamage := actualDamage,
    killed := decide (newHp = 0) }

-- ===== Targeting (engine/targeting.ts) =====

inductive TargetingStrategy
  | first
  | last
  | nearest
  | strongest
  | weakest
deriving DecidableEq, Repr

/-- Placed tower record held in the game state (the store creates towers
without a `lastAttackTime` field; the engine adds it on first fire). -/
structure PlacedTower where
  id : String
  gridCoord : GridCoord
  type : TowerType
  tier : ℕ
  lastAttackTime : Option ℚ
deriving DecidableEq, Repr

/-- Full tower object built by the engine for targeting (`engine/types.ts`). -/
structure Tower where
  id : String
  gridCoord : GridCoord
  pos : Vec2
  type : TowerType
  tier : ℕ
  range : ℚ
  damage : ℚ
  attackRate : ℚ
  projectileSpeed : Option ℚ
  lastAttackTime : ℚ
  splashRadius : Option ℚ
  slowDuration : Option ℚ
  slowAmount : Option ℚ
deriving DecidableEq, Repr

/-- The reducer of `getFirstMob`: `mob.pathProgress > closest.pathProgress ?
mob : closest` — on an exact tie the accumulator (earlier element) wins. -/
def firstReducer (closest mob : Mob) : Mob :=
  if mob.pathProgress > closest.pathProgress then mob else closest

/-- JS `mobs.reduce(...)` with no initial value: fold of the tail with the
head as the initial accumulator. -/
def getFirstMob (mobs : List Mob) : Option Mob :=
  match mobs with
  | [] => none
  | m :: rest => some (rest.foldl firstReducer m)

def getLastMob (mobs : List Mob) : Option Mob :=
  match mobs with
  | [] => none
  | m :: rest =>
    some (rest.foldl
      (fun furthest mob => if mob.pathProgress < furthest.pathProgress then mob else furthest) m)

def getNearestMob (towerPos : Vec2) (mobs : List Mob) : Option Mob :=
  match mobs with
  | [] => none
  | m :: rest =>
    some (rest.foldl
      (fun nearest mob =>
        if distanceSquared towerPos mob.pos < distanceSquared towerPos nearest.pos
        then mob else nearest) m)

def getStrongestMob (mobs : List Mob) : Option Mob :=
  match mobs with
  | [] => none
  | m :: rest =>
    some (rest.foldl (fun strongest mob => if mob.hp > strongest.hp then mob else strongest) m)

def getWeakestMob (mobs : List Mob) : Option Mob :=
  match mobs with
  | [] => none
  | m :: rest =>
    some (rest.foldl (fun weakest mob => if mob.hp < weakest.hp then mob else weakest) m)

/-- The in-range filter of `findTarget`: Euclidean distance (abstracted as
`dist`) at most `tower.range`, and the mob has not reached the end. -/
def mobsInRange (dist : Vec2 → Vec2 → ℚ) (tower : Tower) (mobs : List Mob) : List Mob :=
  mobs.filter (fun mob => decide (dist tower.pos mob.pos ≤ tower.range) && !mob.reachedEnd)

/-- Source `findTarget(tower, mobs, strategy)`: filter to the in-range set, `null`
when empty, else select per strategy. -/
def findTarget (dist : Vec2 → Vec2 → ℚ) (tower : Tower) (mobs : List Mob)
    (strategy : TargetingStrategy) : Option Mob :=
  let inRange := mobsInRange dist tower mobs
  if inRange.isEmpty then none
  else
    match strategy with
    | .first => getFirstMob inRange
    | .last => getLastMob inRange
    | .nearest => getNearestMob tower.pos inRange
    | .strongest => getStrongestMob inRange
    | .weakest => getWeakestMob inRange

/-- Source `canTowerAttack(tower, currentTime)`: the cooldown `1 / attackRate` has
elapsed since `lastAttackTime`. -/
def canTowerAttack (tower : Tower) (currentTime : ℚ) : Bool :=
  decide (currentTime - tower.lastAttackTime ≥ 1 / tower.attackRate)

/-- Source `getMobsInSplashRange(centerPos, splashRadius, mobs)`. -/
def getMobsInSplashRange (dist : Vec2 → Vec2 → ℚ) (centerPos : Vec2)
    (splashRadius : ℚ) (mobs : List Mob) : List Mob :=
  mobs.filter (fun mob => decide (dist centerPos mob.pos ≤ splashRadius) && !mob.reachedEnd)

-- ===== Game state and configuration =====

inductive Phase
  | preparing
  | waveActive
  | betweenWaves
  | victory
  | defeat
deriving DecidableEq, Repr

inductive ProjectileType
  | arrow
  | cannonball
  | frost
deriving DecidableEq, Repr

structure Projectile where
  id : String
  pos : Vec2
  targetPos : Vec2
  targetMobId : Option String
  speed : ℚ
  damage : ℚ
  type : ProjectileType
  splashRadius : Option ℚ
  slowDuration : Option ℚ
  slowAmount : Option ℚ
  hasHit : Bool
deriving DecidableEq, Repr

structure GameConfig where
  mapWidth : ℤ
  mapHeight : ℤ
  tileSize : ℚ
  tickRate : ℚ
  startingMoney : ℚ
  startingLives : ℤ
deriving DecidableEq, Repr

def GAME_CONFIG : GameConfig :=
  { mapWidth := 16, mapHeight := 12, tileSize := 40, tickRate := 60,
    startingMoney := 100, startingLives := 20 }

structure GameState where
  phase : Phase
  currentWaveIndex : ℕ
  simulationTime : ℚ
  isPaused : Bool
  gameSpeed : ℚ
  money : ℚ
  lives : ℤ
  mobs : List Mob
  towers : List PlacedTower
  projectiles : List Projectile
  pathCoords : List GridCoord
deriving DecidableEq, Repr

/-- Non-deterministic inputs of the engine, passed explicitly: the Euclidean
metric (`Math.sqrt` based) and the `Date.now()`/`Math.random()` derived
fresh-id generators for mobs and projectiles. -/
structure SimEnv where
  dist : Vec2 → Vec2 → ℚ
  mobId : ℕ → String
  projId : ℕ → String

-- ===== Simulation engine (engine/sim.ts) =====

/-- Movement of an already-spawned mob: effect decay, effective speed, a
path-progress delta of `speed * tileSize * dt / pathLength`, progress
clamped at 1, position recomputed from the new progress. -/
def moveSpawnedMob (env : SimEnv) (pathCoords : List GridCoord) (simTime dt : ℚ)
    (mob : Mob) : Mob :=
  let m1 := updateMobEffects mob simTime
  let effectiveSpeed := getEffectiveSpeed m1 simTime
  let pathLength := calculatePathLength env.dist pathCoords GAME_CONFIG.tileSize
  let progressDelta := effectiveSpeed * GAME_CONFIG.tileSize * dt / pathLength
  let newProgress := min 1 (m1.pathProgress + progressDelta)
  { m1 with pathProgress := newProgress,
            pos := getPositionOnPath env.dist pathCoords newProgress GAME_CONFIG.tileSize }

/-- Pre-spawn countdown branch of `updateMobs`: progress advances by `dt`;
on reaching 0 the position snaps to the path start. -/
def tickUnspawnedMob (env : SimEnv) (pathCoords : List GridCoord) (dt : ℚ)
    (mob : Mob) : Mob :=
  let newProgress := mob.pathProgress + dt
  { mob with pathProgress := newProgress,
             pos := if newProgress ≥ 0
                    then getPositionOnPath env.dist pathCoords 0 GAME_CONFIG.tileSize
                    else mob.pos }

/-- The per-mob loop of `updateMobs`, returning the surviving mobs and the
number of lives lost.  A mob whose new progress reaches 1 while
`reachedEnd` was still false is marked `reachedEnd := true`, costs one life
and is therefore dropped by the survival filter
`!updatedMob.reachedEnd && updatedMob.hp > 0`. -/
def updateMobsAux (env : SimEnv) (pathCoords : List GridCoord) (simTime dt : ℚ) :
    List Mob → List Mob × ℕ
  | [] => ([], 0)
  | mob :: rest =>
    let r := updateMobsAux env pathCoords simTime dt rest
    if mob.pathProgress < 0 then
      (tickUnspawnedMob env pathCoords dt mob :: r.1, r.2)
    else
      let m2 := moveSpawnedMob env pathCoords simTime dt mob
      if 1 ≤ m2.pathProgress ∧ m2.reachedEnd = false then (r.1, r.2 + 1)
      else if m2.reachedEnd = false ∧ 0 < m2.hp then (m2 :: r.1, r.2)
      else (r.1, r.2)

/-- Source `updateMobs(state, deltaTime)`: movement plus lifecycle; lives are
decremented by the number of mobs that reached the end, floored at 0. -/
def updateMobs (env : SimEnv) (state : GameState) (dt : ℚ) : GameState :=
  let r := updateMobsAux env state.pathCoords state.simulationTime dt state.mobs
  { state with mobs := r.1, lives := max 0 (state.lives - (r.2 : ℤ)) }

/-- The full tower object the engine derives from a placed tower
(`stats.range` is converted to pixels; `lastAttackTime || 0`). -/
def mkSimTower (p : PlacedTower) : Tower :=
  let stats := calculateTowerStatsT p.type p.tier
  let d := towerDefOf p.type
  { id := p.id, gridCoord := p.gridCoord,
    pos := gridToWorld p.gridCoord GAME_CONFIG.tileSize,
    type := p.type, tier := p.tier,
    range := stats.range * GAME_CONFIG.tileSize,
    damage := stats.damage, attackRate := stats.attackRate,
    projectileSpeed := d.projectileSpeed,
    lastAttackTime := jsOr p.lastAttackTime 0,
    splashRadius := d.splashRadius, slowDuration := d.slowDuration,
    slowAmount := d.slowAmount }

def projectileTypeOf : TowerType → ProjectileType
  | .arrow => .arrow
  | .cannon => .cannonball
  | .frost => .frost

/-- The per-tower loop of `updateTowers`: a tower off cooldown with an
in-range target fires one projectile (`speed := projectileSpeed || 0`) and
records `lastAttackTime := simulationTime`; otherwise it is unchanged.
`idx` numbers the towers for fresh projectile ids. -/
def updateTowersAux (env : SimEnv) (simTime : ℚ) (mobs : List Mob) :
    ℕ → List PlacedTower → List PlacedTower × List Projectile
  | _, [] => ([], [])
  | idx, p :: rest =>
    let r := updateTowersAux env simTime mobs (idx + 1) rest
    let tower := mkSimTower p
    if canTowerAttack tower simTime then
      match findTarget env.dist tower mobs .first with
      | some target =>
        let projectile : Projectile :=
          { id := env.projId idx, pos := tower.pos, targetPos := target.pos,
            targetMobId := some target.id, speed := jsOr tower.projectileSpeed 0,
            damage := tower.damage, type := projectileTypeOf p.type,
            splashRadius := tower.splashRadius, slowDuration := tower.slowDuration,
            slowAmount := tower.slowAmount, hasHit := false }
        ({ p with lastAttackTime := some simTime } :: r.1, projectile :: r.2)
      | none => (p :: r.1, r.2)
    else (p :: r.1, r.2)

/-- Source `updateTowers(state)`: targeting and firing against the already-moved
mob set; new projectiles are appended to the existing ones. -/
def updateTowers (env : SimEnv) (state : GameState) : GameState :=
  let r := updateTowersAux env state.simulationTime state.mobs 0 state.towers
  { state with towers := r.1, projectiles := state.projectiles ++ r.2 }

/-- Splash branch of `handleProjectileHit`: every non-end-reached mob within
`splashRadius * tileSize` of the target position takes armor-reduced
damage; each kill removes the mob and adds its bounty. -/
def splashHit (projectile : Projectile) (mobsInSplash : List Mob) :
    List Mob × ℚ → List Mob × ℚ :=
  fun acc =>
    mobsInSplash.foldl
      (fun (st : List Mob × ℚ) mob =>
        match st.1.findIdx? (fun m => m.id == mob.id) with
        | some mobIndex =>
          let result := applyDamage mob projectile.damage
          if result.killed then
            (st.1.eraseIdx mobIndex,
             st.2 + ((st.1.get? mobIndex).map Mob.bounty).getD 0)
          else (st.1.set mobIndex result.mob, st.2)
        | none => st)
      acc

/-- Source `handleProjectileHit(projectile, mobs, currentTime)`: splash damage when
the projectile carries a positive `splashRadius`
(`if (projectile.splashRadius && projectile.splashRadius > 0)`), otherwise
single-target damage (with the slow payload applied first) against the
tracked mob; a missing target is a silent no-op.  Returns the updated mob
list and the bounty gained. -/
def handleProjectileHit (env : SimEnv) (projectile : Projectile) (mobs : List Mob)
    (currentTime : ℚ) : List Mob × ℚ :=
  let splashActive :=
    match projectile.splashRadius with
    | some r => decide (0 < r)
    | none => false
  if splashActive then
    let radius := (projectile.splashRadius.getD 0) * GAME_CONFIG.tileSize
    splashHit projectile (getMobsInSplashRange env.dist projectile.targetPos radius mobs)
      (mobs, 0)
  else
    match mobs.find? (fun mob => some mob.id == projectile.targetMobId) with
    | none => (mobs, 0)
    | some targetMob =>
      let updatedMob :=
        if jsTruthy projectile.slowDuration && jsTruthy projectile.slowAmount then
          applySlow targetMob (projectile.slowAmount.getD 0)
            (projectile.slowDuration.getD 0) currentTime
        else targetMob
      let result := applyDamage updatedMob projectile.damage
      match mobs.findIdx? (fun m => m.id == targetMob.id) with
      | some mobIndex =>
        if result.killed then
          (mobs.eraseIdx mobIndex, ((mobs.get? mobIndex).map Mob.bounty).getD 0)
        else (mobs.set mobIndex result.mob, 0)
      | none => (mobs, 0)

/-- The per-projectile loop of `updateProjectiles`; the accumulator carries
the surviving projectiles, the mob list and the money gained.  Instant
projectiles (`speed ≤ 0`, JS `!speed || speed <= 0`) resolve immediately;
flying projectiles resolve when the remaining distance is within this
tick's step, else they advance toward the target. -/
def updateProjectilesStep (env : SimEnv) (simTime dt : ℚ)
    (acc : List Projectile × List Mob × ℚ) (projectile : Projectile) :
    List Projectile × List Mob × ℚ :=
  if projectile.hasHit then acc
  else if projectile.speed ≤ 0 then
    let r := handleProjectileHit env projectile acc.2.1 simTime
    (acc.1, r.1, acc.2.2 + r.2)
  else
    let distanceToTarget := env.dist projectile.pos projectile.targetPos
    let moveDistance := projectile.speed * GAME_CONFIG.tileSize * dt
    if distanceToTarget ≤ moveDistance then
      let r := handleProjectileHit env projectile acc.2.1 simTime
      (acc.1, r.1, acc.2.2 + r.2)
    else
      let direction : Vec2 :=
        ⟨(projectile.targetPos.x - projectile.pos.x) / distanceToTarget,
         (projectile.targetPos.y - projectile.pos.y) / distanceToTarget⟩
      (acc.1 ++ [{ projectile with
                   pos := ⟨projectile.pos.x + direction.x * moveDistance,
                           projectile.pos.y + direction.y * moveDistance⟩ }],
       acc.2.1, acc.2.2)

/-- Source `updateProjectiles(state, deltaTime)`: flight and impact resolution; all
bounty earned is summed into `money`. -/
def updateProjectiles (env : SimEnv) (state : GameState) (dt : ℚ) : GameState :=
  let r := state.projectiles.foldl (updateProjectilesStep env state.simulationTime dt)
    ([], state.mobs, 0)
  { state with projectiles := r.1, mobs := r.2.1, money := state.money + r.2.2 }

/-- The hard-coded per-wave composition table of `spawnWave`
(waves 1–10; any other wave number yields no mobs). -/
def waveMobTypes (waveNumber : ℕ) : List (MobType × ℕ) :=
  match waveNumber with
  | 1 => [(.normal, 5)]
  | 2 => [(.normal, 8)]
  | 3 => [(.normal, 6), (.fast, 4)]
  | 4 => [(.fast, 8), (.normal, 4)]
  | 5 => [(.normal, 8), (.tank, 3)]
  | 6 => [(.normal, 6), (.fast, 5), (.flying, 4)]
  | 7 => [(.fast, 10), (.tank, 4), (.flying, 6)]
  | 8 => [(.tank, 8), (.normal, 10), (.flying, 3)]
  | 9 => [(.fast, 15), (.flying, 10), (.tank, 5)]
  | 10 => [(.tank, 10), (.fast, 15), (.flying, 12), (.normal, 20)]
  | _ => []

/-- One freshly spawned mob: stats scaled to the wave, position at the path
start, and a staggered spawn delay encoded as `pathProgress = -delay/10`. -/
def mkWaveMob (env : SimEnv) (pathCoords : List GridCoord) (waveNumber : ℕ)
    (t : MobType) (delay : ℚ) (idx : ℕ) : Mob :=
  let mobStats := calculateMobStatsT t waveNumber
  { id := env.mobId idx,
    pos := getPositionOnPath env.dist pathCoords 0 GAME_CONFIG.tileSize,
    hp := (mobStats.hp : ℚ), maxHp := (mobStats.maxHp : ℚ),
    speed := mobStats.speed, armor := mobStats.armor, type := mobStats.type,
    bounty := mobStats.bounty, pathProgress := -delay / 10,
    status := ⟨none, none⟩, reachedEnd := false }

/-- The inner `for (i = 0; i < count; i++)` loop of `spawnWave`: `delay`
grows by `baseSpacing` after each mob.  Returns the group's mobs together
with the final delay and id counter. -/
def spawnGroup (env : SimEnv) (pathCoords : List GridCoord) (waveNumber : ℕ)
    (t : MobType) (baseSpacing : ℚ) : ℕ → ℚ → ℕ → List Mob × ℚ × ℕ
  | 0, delay, idx => ([], delay, idx)
  | count + 1, delay, idx =>
    let r := spawnGroup env pathCoords waveNumber t baseSpacing count
      (delay + baseSpacing) (idx + 1)
    (mkWaveMob env pathCoords waveNumber t delay idx :: r.1, r.2.1, r.2.2)

/-- The outer `mobTypes.forEach` loop of `spawnWave`: an extra 1.5s delay is
inserted between the mob-type groups of one wave. -/
def spawnWaveMobs (env : SimEnv) (pathCoords : List GridCoord) (waveNumber : ℕ)
    (baseSpacing : ℚ) : List (MobType × ℕ) → ℚ → ℕ → List Mob
  | [], _, _ => []
  | (t, count) :: rest, delay, idx =>
    let r := spawnGroup env pathCoords waveNumber t baseSpacing count delay idx
    r.1 ++ spawnWaveMobs env pathCoords waveNumber baseSpacing rest (r.2.1 + 1.5) r.2.2

/-- Source `spawnWave(state)`: appends the next wave's mobs
(`baseSpacing = max(0.3, 1.2 - waveNumber*0.1)`), advances
`currentWaveIndex` to the new wave number and sets `phase = wave-active`. -/
def spawnWave (env : SimEnv) (state : GameState) : GameState :=
  let waveNumber := state.currentWaveIndex + 1
  let baseSpacing := max 0.3 (1.2 - (waveNumber : ℚ) * 0.1)
  let newMobs := spawnWaveMobs env state.pathCoords waveNumber baseSpacing
    (waveMobTypes waveNumber) 0 0
  { state with mobs := state.mobs ++ newMobs, currentWaveIndex := waveNumber,
               phase := .waveActive }

/-- Source `updateWaveSpawning(state)`: a wave triggers when
`floor(simulationTime / 15) > currentWaveIndex` and fewer than 10 waves
have spawned. -/
def updateWaveSpawning (env : SimEnv) (state : GameState) : GameState :=
  let waveInterval : ℚ := 15
  if ⌊state.simulationTime / waveInterval⌋ > (state.currentWaveIndex : ℤ) ∧
      state.currentWaveIndex < 10 then
    spawnWave env state
  else state

/-- Source `updateGamePhase(state)`: `lives ≤ 0` forces `defeat`; otherwise wave 10
spawned with no live mobs forces `victory`. -/
def updateGamePhase (state : GameState) : GameState :=
  if state.lives ≤ 0 ∧ state.phase ≠ .defeat then { state with phase := .defeat }
  else if 10 ≤ state.currentWaveIndex ∧ state.mobs.isEmpty ∧ state.phase ≠ .victory then
    { state with phase := .victory }
  else state

/-- Source `advanceTick(state, deltaTime)`: no-op when paused or in a terminal
phase; otherwise the strictly ordered pipeline of simulation-time advance,
mob movement, tower firing, projectile resolution, wave spawning and phase
transition, every per-tick delta pre-scaled by `gameSpeed`. -/
def advanceTick (env : SimEnv) (state : GameState) (deltaTime : ℚ) : GameState :=
  if state.isPaused then state
  else if state.phase = .defeat ∨ state.phase = .victory then state
  else
    let scaled := deltaTime * state.gameSpeed
    let newState := { state with simulationTime := state.simulationTime + scaled }
    let s2 := updateMobs env newState scaled
    let s3 := updateTowers env s2
    let s4 := updateProjectiles env s3 scaled
    let s5 := updateWaveSpawning env s4
    updateGamePhase s5

-- ===== State container (state/store.ts) =====

/-- The slice of the zustand store the mutation entry points read and
write.  UI-only fields other than `selectedTowerId` (which the actions
touch) are irrelevant to the claims and omitted. -/
structure StoreState where
  money : ℚ
  towers : List PlacedTower
  map : List (List Tile)
  selectedTowerId : Option String
deriving DecidableEq, Repr

/-- Source `getTowerById(id)`: first tower with that id. -/
def getTowerById (s : StoreState) (towerId : String) : Option PlacedTower :=
  s.towers.find? (fun t => t.id == towerId)

/-- The store's `canBuildAt(coord)`: inside the configured 16×12 bounds, on
a `buildable` tile, and not already occupied by a tower. -/
def storeCanBuildAt (s : StoreState) (coord : GridCoord) : Bool :=
  if coord.x < 0 ∨ coord.x ≥ GAME_CONFIG.mapWidth ∨
     coord.y < 0 ∨ coord.y ≥ GAME_CONFIG.mapHeight then false
  else
    match (s.map.get? coord.y.toNat).bind (fun row => row.get? coord.x.toNat) with
    | none => false
    | some tile =>
      tile.type == .buildable &&
      !(s.towers.any (fun tower =>
          tower.gridCoord.x == coord.x && tower.gridCoord.y == coord.y))

/-- Source `buildTower(coord, towerType)`: rejected (state unchanged) on
insufficient funds or an illegal location; otherwise appends a fresh tier-1
tower, deducts `calculateTowerStats(type, 1).cost` and selects the new
tower.  `newId` stands for the `Date.now()`/`Math.random()` generated id. -/
def buildTower (s : StoreState) (coord : GridCoord) (towerType : TowerType)
    (newId : String) : StoreState :=
  let stats := calculateTowerStatsT towerType 1
  if s.money < stats.cost then s
  else if !storeCanBuildAt s coord then s
  else
    { s with towers := s.towers ++ [⟨newId, coord, towerType, 1, none⟩],
             money := s.money - stats.cost,
             selectedTowerId := some newId }

/-- Source `upgradeTower(towerId)`: rejected on an unknown id, a tier ≥ 3 tower or
insufficient funds; otherwise bumps the tower's tier and deducts the
upgrade cost. -/
def upgradeTower (s : StoreState) (towerId : String) : StoreState :=
  match getTowerById s towerId with
  | none => s
  | some tower =>
    if tower.tier ≥ 3 then s
    else
      let nextTier := tower.tier + 1
      if nextTier > 3 then s
      else
        let upgradeCost := calculateUpgradeCostT tower.type tower.tier nextTier
        if s.money < upgradeCost then s
        else
          { s with towers := s.towers.map (fun t =>
                     if t.id == towerId then { t with tier := nextTier } else t),
                   money := s.money - upgradeCost }

/-- The tower's total investment: base cost plus every upgrade cost paid up
to its current tier (the `totalCost` accumulator of the store's
`calculateSellValue`). -/
def totalInvestment (tower : PlacedTower) : ℚ :=
  (List.range' 2 (tower.tier - 1)).foldl
    (fun acc tier => acc + calculateUpgradeCostT tower.type (tier - 1) tier)
    (towerDefOf tower.type).baseCost

/-- The store's `calculateSellValue(tower)`: 70% of the total investment,
floored. -/
def storeCalculateSellValue (tower : PlacedTower) : ℤ :=
  ⌊totalInvestment tower * 0.7⌋

/-- Source `sellTower(towerId)`: rejected on an unknown id; otherwise removes the
tower, credits the sell value and clears the selection. -/
def sellTower (s : StoreState) (towerId : String) : StoreState :=
  match getTowerById s towerId with
  | none => s
  | some tower =>
    let sellValue := storeCalculateSellValue tower
    { s with towers := s.towers.filter (fun t => t.id ≠ towerId),
             money := s.money + (sellValue : ℚ),
             selectedTowerId := none }

-- ===== Shared helper lemmas =====

theorem jsOr_zero_default (a : Option ℚ) : jsOr a 0 = a.getD 0 := by
  cases a with
  | none => rfl
  | some v =>
    by_cases hv : v = 0 <;> simp [jsOr, hv]

theorem jsOr_of_ne_some_zero (a : Option ℚ) (b : ℚ) (h : a ≠ some 0) :
    jsOr a b = a.getD b := by
  cases a with
  | none => rfl
  | some v =>
    have hv : v ≠ 0 := fun hv0 => h (by rw [hv0])
    simp [jsOr, hv]

-- ===== C7 =====

/-- Claim C7: for a non-empty path, `getPositionOnPath` clamps progress at
or below 0 to the world position of the first path tile and progress at or
above 1 to the world position of the last path tile, for every distance
function, path, and tile size. -/
theorem getPositionOnPath_clamp_spec (dist : Vec2 → Vec2 → ℚ)
    (path : List GridCoord) (progress tileSize : ℚ) (h : path ≠ []) :
    (progress ≤ 0 →
      getPositionOnPath dist path progress tileSize = gridToWorld (path.head h) tileSize) ∧
    (1 ≤ progress →
      getPositionOnPath dist path progress tileSize = gridToWorld (path.getLast h) tileSize) := by
  match path, h with
  | p :: rest, _ =>
    constructor
    · intro hp
      simp [getPositionOnPath, hp]
    · intro hp
      have hp0 : ¬ progress ≤ 0 := by linarith
      cases rest with
      | nil => simp [getPositionOnPath, List.getLast]
      | cons q rest2 =>
        simp [getPositionOnPath, hp0, hp, List.isEmpty]

theorem getPositionOnPath_clamp_spec_witness :
    getPositionOnPath (fun _ _ => 0) [⟨0, 0⟩, ⟨1, 0⟩] (-1/2) 40 =
        gridToWorld ⟨0, 0⟩ 40 ∧
    getPositionOnPath (fun _ _ => 0) [⟨0, 0⟩, ⟨1, 0⟩] 2 40 =
        gridToWorld ⟨1, 0⟩ 40 := by
  have h := getPositionOnPath_clamp_spec (fun _ _ => 0) [⟨0, 0⟩, ⟨1, 0⟩] (-1/2) 40
    (by decide)
  have h2 := getPositionOnPath_clamp_spec (fun _ _ => 0) [⟨0, 0⟩, ⟨1, 0⟩] 2 40
    (by decide)
  exact ⟨h.1 (by norm_num), h2.2 (by norm_num)⟩

-- ===== C8 =====

/-- Claim C8: `applySlow` sets `slowUntil` to the maximum of the existing
`slowUntil` (0 when unset) and `now + duration`, so the remaining slow can
only be extended, and sets `slowMultiplier` to the minimum of the existing
multiplier (1 when unset) and the new one, so the numerically smallest
multiplier wins regardless of application order; every other mob field is
unchanged.  The hypothesis excludes a stored multiplier of exactly 0,
which JS truthiness would treat as unset; no catalog slow amount is 0. -/
theorem applySlow_stacking_spec (mob : Mob) (m d now : ℚ)
    (h : mob.status.slowMultiplier ≠ some 0) :
    applySlow mob m d now =
      { mob with status :=
          { slowUntil := some (max (mob.status.slowUntil.getD 0) (now + d)),
            slowMultiplier := some (min (mob.status.slowMultiplier.getD 1) m) } } ∧
    mob.status.slowUntil.getD 0 ≤ (applySlow mob m d now).status.slowUntil.getD 0 ∧
    (applySlow mob m d now).status.slowMultiplier.getD 1 ≤ m ∧
    (applySlow mob m d now).pos = mob.pos ∧
    (applySlow mob m d now).hp = mob.hp ∧
    (applySlow mob m d now).pathProgress = mob.pathProgress ∧
    (applySlow mob m d now).reachedEnd = mob.reachedEnd := by
  have hmain : applySlow mob m d now =
      { mob with status :=
          { slowUntil := some (max (mob.status.slowUntil.getD 0) (now + d)),
            slowMultiplier := some (min (mob.status.slowMultiplier.getD 1) m) } } := by
    simp only [applySlow, canBeSlowed, Bool.not_true, Bool.false_eq_true, if_false,
      jsOr_zero_default, jsOr_of_ne_some_zero _ _ h]
    rw [min_comm]
  refine ⟨hmain, ?_, ?_, ?_, ?_, ?_, ?_⟩ <;> rw [hmain] <;> simp [le_max_left, min_le_right]

theorem applySlow_stacking_spec_witness :
    applySlow
        { id := "m", pos := ⟨0, 0⟩, hp := 10, maxHp := 10, speed := 1, armor := 0,
          type := .normal, bounty := 5, pathProgress := 0,
          status := { slowUntil := some 4, slowMultiplier := some 0.7 },
          reachedEnd := false } 0.5 3 2 =
      { id := "m", pos := ⟨0, 0⟩, hp := 10, maxHp := 10, speed := 1, armor := 0,
        type := .normal, bounty := 5, pathProgress := 0,
        status := { slowUntil := some 5, slowMultiplier := some 0.5 },
        reachedEnd := false } := by
  have h := applySlow_stacking_spec
    { id := "m", pos := ⟨0, 0⟩, hp := 10, maxHp := 10, speed := 1, armor := 0,
      type := .normal, bounty := 5, pathProgress := 0,
      status := { slowUntil := some 4, slowMultiplier := some 0.7 },
      reachedEnd := false } 0.5 3 2 (by norm_num)
  rw [h.1]
  norm_num

-- ===== C9 =====

/-- Claim C9: for any type string outside the defined tables,
`calculateTowerStats` and `calculateMobStats` fail loudly with an
`Unknown … type` error, while `calculateUpgradeCost` never fails: it
returns 0 for an unknown tower type or when `fromTier ≥ toTier`, and
otherwise returns the cost of the upgrade record matching `toTier`
(30/60 for arrow, 75/120 for cannon, 50/80 for frost). -/
theorem catalog_error_handling_spec :
    (∀ s : String, s ≠ "arrow" → s ≠ "cannon" → s ≠ "frost" →
      (∀ tier, calculateTowerStats s tier = .error ("Unknown tower type: " ++ s)) ∧
      (∀ fromTier toTier, calculateUpgradeCost s fromTier toTier = 0)) ∧
    (∀ s : String, s ≠ "normal" → s ≠ "fast" → s ≠ "tank" → s ≠ "flying" →
      ∀ n, calculateMobStats s n = .error ("Unknown mob type: " ++ s)) ∧
    (∀ s fromTier toTier, toTier ≤ fromTier → calculateUpgradeCost s fromTier toTier = 0) ∧
    calculateUpgradeCost "arrow" 1 2 = 30 ∧ calculateUpgradeCost "arrow" 2 3 = 60 ∧
    calculateUpgradeCost "cannon" 1 2 = 75 ∧ calculateUpgradeCost "cannon" 2 3 = 120 ∧
    calculateUpgradeCost "frost" 1 2 = 50 ∧ calculateUpgradeCost "frost" 2 3 = 80 := by
  refine ⟨?_, ?_, ?_, ?_, ?_, ?_, ?_, ?_, ?_⟩
  · intro s h1 h2 h3
    constructor
    · intro tier
      simp [calculateTowerStats, TOWER_DEFINITIONS, h1, h2, h3]
    · intro fromTier toTier
      simp [calculateUpgradeCost, TOWER_DEFINITIONS, h1, h2, h3]
  · intro s h1 h2 h3 h4 n
    simp [calculateMobStats, MOB_DEFINITIONS, h1, h2, h3, h4]
  · intro s fromTier toTier hle
    have hge : fromTier ≥ toTier := hle
    unfold calculateUpgradeCost
    cases TOWER_DEFINITIONS s with
    | none => rfl
    | some d => simp [hge]
  all_goals decide

theorem catalog_error_handling_spec_witness :
    calculateTowerStats "laser" 1 = .error ("Unknown tower type: " ++ "laser") ∧
    calculateUpgradeCost "laser" 1 2 = 0 ∧
    calculateMobStats "dragon" 3 = .error ("Unknown mob type: " ++ "dragon") ∧
    calculateUpgradeCost "arrow" 2 2 = 0 := by
  refine ⟨?_, ?_, ?_, ?_⟩
  · exact ((catalog_error_handling_spec.1 "laser" (by decide) (by decide) (by decide)).1 1)
  · exact ((catalog_error_handling_spec.1 "laser" (by decide) (by decide) (by decide)).2 1 2)
  · exact (catalog_error_handling_spec.2.1 "dragon" (by decide) (by decide) (by decide)
      (by decide) 3)
  · exact (catalog_error_handling_spec.2.2.1 "arrow" 2 2 (by decide))

-- ===== C6 =====

/-- Claim C6: for every known mob type and wave number `n ≥ 1`,
`calculateMobStats` returns `hp = floor(baseHp * hpMultiplier^(n-1))`
(also used for `maxHp`), `speed = baseSpeed * (speedMultiplier ?? 1)^(n-1)`,
with armor and bounty passed through unchanged; at `n = 1` the returned hp
and speed are exactly the base stats. -/
theorem calculateMobStats_scaling_spec (t : MobType) (n : ℕ) (h : 1 ≤ n) :
    calculateMobStats (mobKey t) n =
      .ok { hp := ⌊(mobDefOf t).baseHp * (mobDefOf t).hpMultiplier ^ (n - 1)⌋,
            maxHp := ⌊(mobDefOf t).baseHp * (mobDefOf t).hpMultiplier ^ (n - 1)⌋,
            speed := (mobDefOf t).baseSpeed * ((mobDefOf t).speedMultiplier.getD 1) ^ (n - 1),
            armor := (mobDefOf t).armor, bounty := (mobDefOf t).bounty, type := t } ∧
    (((calculateMobStatsD (mobDefOf t) 1).hp : ℚ) = (mobDefOf t).baseHp ∧
      (calculateMobStatsD (mobDefOf t) 1).speed = (mobDefOf t).baseSpeed) := by
  constructor
  · cases t <;>
      simp +decide [calculateMobStats, mobKey, MOB_DEFINITIONS, calculateMobStatsD,
        mobDefOf, normalDef, fastDef, tankDef, flyingDef, jsOr] <;>
      (intro h0; norm_num at h0)
  · cases t <;>
      (simp +decide only [calculateMobStatsD, mobDefOf, normalDef, fastDef, tankDef,
        flyingDef, jsOr, pow_zero, mul_one] <;> norm_num)

theorem calculateMobStats_scaling_spec_witness :
    calculateMobStats "normal" 1 =
      .ok { hp := 40, maxHp := 40, speed := 1.5, armor := 0, bounty := 5,
            type := .normal } := by
  have h := (calculateMobStats_scaling_spec .normal 1 (by decide)).1
  rw [show mobKey .normal = "normal" from rfl] at h
  rw [h]
  norm_num [mobDefOf, normalDef]

-- ===== C10 =====

/-- Claim C10: the two independent sell-value computations agree — for every
tower type and tier 1–3, the store's `calculateSellValue` (base cost plus
per-step upgrade costs, times 0.7, floored) equals the catalog's
`calculateSellValue` (`floor(calculateTowerStats(type, tier).cost * 0.7)`). -/
theorem sellValue_refinement_spec (tt : TowerType) (tier : ℕ) (id : String)
    (coord : GridCoord) (last : Option ℚ) (h1 : 1 ≤ tier) (h3 : tier ≤ 3) :
    calculateSellValue (towerKey tt) tier =
      .ok (storeCalculateSellValue ⟨id, coord, tt, tier, last⟩) := by
  interval_cases tier <;> cases tt <;>
    (simp +decide only [calculateSellValue, calculateTowerStats, TOWER_DEFINITIONS,
      towerKey, calculateTowerStatsD, storeCalculateSellValue, totalInvestment,
      calculateUpgradeCostT, calculateUpgradeCost, towerDefOf, arrowDef, cannonDef,
      frostDef, List.range', jsOr, Except.map]
     norm_num)

theorem sellValue_refinement_spec_witness :
    calculateSellValue (towerKey .frost) 3 =
      .ok (storeCalculateSellValue ⟨"t1", ⟨2, 3⟩, .frost, 3, none⟩) :=
  sellValue_refinement_spec .frost 3 "t1" ⟨2, 3⟩ none (by decide) (by decide)

-- ===== C5 =====

theorem firstReducer_left_le (a b : Mob) :
    a.pathProgress ≤ (firstReducer a b).pathProgress := by
  unfold firstReducer
  split <;> [linarith [show b.pathProgress > a.pathProgress by assumption]; rfl]

theorem firstReducer_right_le (a b : Mob) :
    b.pathProgress ≤ (firstReducer a b).pathProgress := by
  unfold firstReducer
  split
  · rfl
  · exact le_of_not_lt (by assumption)

theorem firstReducer_cases (a b : Mob) : firstReducer a b = a ∨ firstReducer a b = b := by
  unfold firstReducer
  split <;> [exact Or.inr rfl; exact Or.inl rfl]

/-- The running maximum bounds every element seen so far. -/
theorem foldl_firstReducer_le (l : List Mob) :
    ∀ a x, x ∈ a :: l → x.pathProgress ≤ (l.foldl firstReducer a).pathProgress := by
  induction l with
  | nil =>
    intro a x hx
    rcases List.mem_singleton.mp hx with rfl
    rfl
  | cons b t ih =>
    intro a x hx
    rw [List.foldl_cons]
    rcases List.mem_cons.mp hx with rfl | hx2
    · exact le_trans (firstReducer_left_le x b) (ih (firstReducer x b) _ (List.mem_cons_self _ _))
    · rcases List.mem_cons.mp hx2 with rfl | hx3
      · exact le_trans (firstReducer_right_le a x) (ih (firstReducer a x) _ (List.mem_cons_self _ _))
      · exact ih (firstReducer a b) x (List.mem_cons_of_mem _ hx3)

/-- First-seen-wins argmax decomposition of the fold: either no element beats
the initial accumulator, or the result is the unique first element that
strictly beats everything before it and is never strictly beaten after. -/
theorem foldl_firstReducer_split (l : List Mob) :
    ∀ a, l.foldl firstReducer a = a ∨
      ∃ l₁ x l₂, l = l₁ ++ x :: l₂ ∧ l.foldl firstReducer a = x ∧
        a.pathProgress < x.pathProgress ∧
        (∀ y ∈ l₁, y.pathProgress < x.pathProgress) ∧
        (∀ y ∈ l₂, y.pathProgress ≤ x.pathProgress) := by
  induction l with
  | nil => intro a; exact Or.inl rfl
  | cons b t ih =>
    intro a
    rw [List.foldl_cons]
    by_cases hc : b.pathProgress > a.pathProgress
    · have hred : firstReducer a b = b := by simp [firstReducer, hc]
      rw [hred]
      rcases ih b with h1 | ⟨t₁, x, t₂, ht, hres, hlt, hall1, hall2⟩
      · refine Or.inr ⟨[], b, t, by simp, h1, hc, by simp, ?_⟩
        intro y hy
        have := foldl_firstReducer_le t b y (List.mem_cons_of_mem _ hy)
        rwa [h1] at this
      · refine Or.inr ⟨b :: t₁, x, t₂, by rw [ht]; simp, hres, lt_trans hc hlt, ?_, hall2⟩
        intro y hy
        rcases List.mem_cons.mp hy with rfl | hy2
        · exact hlt
        · exact hall1 y hy2
    · have hred : firstReducer a b = a := by simp [firstReducer, hc]
      rw [hred]
      rcases ih a with h1 | ⟨t₁, x, t₂, ht, hres, hlt, hall1, hall2⟩
      · exact Or.inl h1
      · refine Or.inr ⟨b :: t₁, x, t₂, by rw [ht]; simp, hres, hlt, ?_, hall2⟩
        intro y hy
        rcases List.mem_cons.mp hy with rfl | hy2
        · exact lt_of_le_of_lt (le_of_not_lt hc) hlt
        · exact hall1 y hy2

/-- Claim C5: `findTarget` first restricts to the mobs within the tower's
range whose `reachedEnd` flag is false, returning none exactly when that
set is empty; under the default `first` strategy it returns the in-range
candidate with the largest `pathProgress`, and on exact ties the candidate
encountered first in list order wins (every earlier candidate is strictly
smaller, every later one is at most equal).  `dist` abstracts the Euclidean
distance, so the statement holds for the Euclidean metric in particular. -/
theorem findTarget_first_strategy_spec (dist : Vec2 → Vec2 → ℚ) (tower : Tower)
    (mobs : List Mob) :
    (∀ mob, mob ∈ mobsInRange dist tower mobs ↔
      mob ∈ mobs ∧ dist tower.pos mob.pos ≤ tower.range ∧ mob.reachedEnd = false) ∧
    (findTarget dist tower mobs .first = none ↔ mobsInRange dist tower mobs = []) ∧
    (∀ m, findTarget dist tower mobs .first = some m →
      ∃ l₁ l₂, mobsInRange dist tower mobs = l₁ ++ m :: l₂ ∧
        (∀ y ∈ l₁, y.pathProgress < m.pathProgress) ∧
        (∀ y ∈ l₂, y.pathProgress ≤ m.pathProgress)) := by
  refine ⟨?_, ?_, ?_⟩
  · intro mob
    simp [mobsInRange, List.mem_filter]
  · unfold findTarget
    cases hin : mobsInRange dist tower mobs with
    | nil => simp
    | cons m0 rest => simp [getFirstMob]
  · intro m hm
    unfold findTarget at hm
    cases hin : mobsInRange dist tower mobs with
    | nil => rw [hin] at hm; simp at hm
    | cons m0 rest =>
      rw [hin] at hm
      simp only [List.isEmpty_cons, getFirstMob, if_false, Bool.false_eq_true,
        Option.some.injEq] at hm
      rcases foldl_firstReducer_split rest m0 with h1 | ⟨t₁, x, t₂, ht, hres, hlt, hall1, hall2⟩
      · have hm0 : m = m0 := by rw [← hm, h1]
        refine ⟨[], rest, by simp [hm0], ?_⟩
        constructor
        · intro y hy
          exact absurd hy (List.not_mem_nil y)
        · intro y hy
          have := foldl_firstReducer_le rest m0 y (List.mem_cons_of_mem _ hy)
          rw [h1] at this
          rw [hm0]
          exact this
      · have hxm : x = m := by rw [← hres, hm]
        refine ⟨m0 :: t₁, t₂, ?_, ?_, ?_⟩
        · rw [ht, ← hxm]
          simp
        · intro y hy
          rw [← hxm]
          rcases List.mem_cons.mp hy with rfl | hy2
          · exact hlt
          · exact hall1 y hy2
        · intro y hy
          rw [← hxm]
          exact hall2 y hy

theorem findTarget_first_strategy_spec_witness :
    findTarget (fun a b => |a.x - b.x| + |a.y - b.y|)
        { id := "t", gridCoord := ⟨0, 0⟩, pos := ⟨0, 0⟩, type := .arrow, tier := 1,
          range := 100, damage := 15, attackRate := 2.5, projectileSpeed := some 8,
          lastAttackTime := 0, splashRadius := none, slowDuration := none,
          slowAmount := none }
        [{ id := "a", pos := ⟨10, 0⟩, hp := 40, maxHp := 40, speed := 1, armor := 0,
           type := .normal, bounty := 5, pathProgress := 0.5, status := ⟨none, none⟩,
           reachedEnd := false },
         { id := "b", pos := ⟨20, 0⟩, hp := 40, maxHp := 40, speed := 1, armor := 0,
           type := .normal, bounty := 5, pathProgress := 0.7, status := ⟨none, none⟩,
           reachedEnd := false }] .first =
      some { id := "b", pos := ⟨20, 0⟩, hp := 40, maxHp := 40, speed := 1, armor := 0,
             type := .normal, bounty := 5, pathProgress := 0.7, status := ⟨none, none⟩,
             reachedEnd := false } ∧
    ∃ l₁ l₂,
      mobsInRange (fun a b => |a.x - b.x| + |a.y - b.y|)
          { id := "t", gridCoord := ⟨0, 0⟩, pos := ⟨0, 0⟩, type := .arrow, tier := 1,
            range := 100, damage := 15, attackRate := 2.5, projectileSpeed := some 8,
            lastAttackTime := 0, splashRadius := none, slowDuration := none,
            slowAmount := none }
          [{ id := "a", pos := ⟨10, 0⟩, hp := 40, maxHp := 40, speed := 1, armor := 0,
             type := .normal, bounty := 5, pathProgress := 0.5, status := ⟨none, none⟩,
             reachedEnd := false },
           { id := "b", pos := ⟨20, 0⟩, hp := 40, maxHp := 40, speed := 1, armor := 0,
             type := .normal, bounty := 5, pathProgress := 0.7, status := ⟨none, none⟩,
             reachedEnd := false }] =
        l₁ ++
          { id := "b", pos := ⟨20, 0⟩, hp := 40, maxHp := 40, speed := 1, armor := 0,
            type := .normal, bounty := 5, pathProgress := 0.7, status := ⟨none, none⟩,
            reachedEnd := false } :: l₂ ∧
      (∀ y ∈ l₁, y.pathProgress < 0.7) ∧ (∀ y ∈ l₂, y.pathProgress ≤ 0.7) := by
  have hfind : findTarget (fun a b => |a.x - b.x| + |a.y - b.y|)
      { id := "t", gridCoord := ⟨0, 0⟩, pos := ⟨0, 0⟩, type := .arrow, tier := 1,
        range := 100, damage := 15, attackRate := 2.5, projectileSpeed := some 8,
        lastAttackTime := 0, splashRadius := none, slowDuration := none,
        slowAmount := none }
      [{ id := "a", pos := ⟨10, 0⟩, hp := 40, maxHp := 40, speed := 1, armor := 0,
         type := .normal, bounty := 5, pathProgress := 0.5, status := ⟨none, none⟩,
         reachedEnd := false },
       { id := "b", pos := ⟨20, 0⟩, hp := 40, maxHp := 40, speed := 1, armor := 0,
         type := .normal, bounty := 5, pathProgress := 0.7, status := ⟨none, none⟩,
         reachedEnd := false }] .first =
      some { id := "b", pos := ⟨20, 0⟩, hp := 40, maxHp := 40, speed := 1, armor := 0,
             type := .normal, bounty := 5, pathProgress := 0.7, status := ⟨none, none⟩,
             reachedEnd := false } := by
    norm_num [findTarget, mobsInRange, getFirstMob, firstReducer, List.filter]
  refine ⟨hfind, ?_⟩
  have h := (findTarget_first_strategy_spec (fun a b => |a.x - b.x| + |a.y - b.y|)
    { id := "t", gridCoord := ⟨0, 0⟩, pos := ⟨0, 0⟩, type := .arrow, tier := 1,
      range := 100, damage := 15, attackRate := 2.5, projectileSpeed := some 8,
      lastAttackTime := 0, splashRadius := none, slowDuration := none,
      slowAmount := none }
    [{ id := "a", pos := ⟨10, 0⟩, hp := 40, maxHp := 40, speed := 1, armor := 0,
       type := .normal, bounty := 5, pathProgress := 0.5, status := ⟨none, none⟩,
       reachedEnd := false },
     { id := "b", pos := ⟨20, 0⟩, hp := 40, maxHp := 40, speed := 1, armor := 0,
       type := .normal, bounty := 5, pathProgress := 0.7, status := ⟨none, none⟩,
       reachedEnd := false }]).2.2 _ hfind
  exact h

-- ===== C1 =====

/-- Claim C1: money conservation at the mutation entry points.  A rejected
`buildTower` (insufficient funds or `canBuildAt` false), a rejected
`upgradeTower` (unknown id, tier already at 3, or insufficient funds) and a
rejected `sellTower` (unknown id) leave `money` unchanged; an accepted
build deducts exactly `calculateTowerStats(type, 1).cost`; an accepted sell
credits exactly `floor(totalInvestment * 0.7)`, where `totalInvestment` is
the base cost plus every upgrade cost paid up to the tower's tier. -/
theorem money_conservation_spec (s : StoreState) (coord : GridCoord)
    (tt : TowerType) (newId : String) :
    (s.money < (calculateTowerStatsT tt 1).cost ∨ storeCanBuildAt s coord = false →
      (buildTower s coord tt newId).money = s.money) ∧
    (¬ s.money < (calculateTowerStatsT tt 1).cost → storeCanBuildAt s coord = true →
      (buildTower s coord tt newId).money = s.money - (calculateTowerStatsT tt 1).cost) ∧
    (∀ towerId, getTowerById s towerId = none →
      (upgradeTower s towerId).money = s.money) ∧
    (∀ towerId tower, getTowerById s towerId = some tower → 3 ≤ tower.tier →
      (upgradeTower s towerId).money = s.money) ∧
    (∀ towerId tower, getTowerById s towerId = some tower →
      s.money < calculateUpgradeCostT tower.type tower.tier (tower.tier + 1) →
      (upgradeTower s towerId).money = s.money) ∧
    (∀ towerId, getTowerById s towerId = none →
      (sellTower s towerId).money = s.money) ∧
    (∀ towerId tower, getTowerById s towerId = some tower →
      (sellTower s towerId).money = s.money + (⌊totalInvestment tower * 0.7⌋ : ℤ)) := by
  refine ⟨?_, ?_, ?_, ?_, ?_, ?_, ?_⟩
  · intro h
    rcases h with h | h
    · simp [buildTower, h]
    · simp [buildTower, h]
  · intro hmoney hcan
    simp [buildTower, hmoney, hcan]
  · intro towerId hfind
    simp [upgradeTower, hfind]
  · intro towerId tower hfind htier
    simp [upgradeTower, hfind, htier]
  · intro towerId tower hfind hmoney
    unfold upgradeTower
    rw [hfind]
    by_cases htier : tower.tier ≥ 3
    · simp [htier]
    · have hnext : ¬ tower.tier + 1 > 3 := by omega
      simp [htier, hnext, hmoney]
  · intro towerId hfind
    simp [sellTower, hfind]
  · intro towerId tower hfind
    simp [sellTower, hfind, storeCalculateSellValue]

/-- Concrete 1×1 buildable map slice used by the witnesses. -/
def witnessMap : List (List Tile) := [[⟨⟨0, 0⟩, .buildable, none⟩]]

theorem money_conservation_spec_witness :
    (buildTower ⟨10, [], witnessMap, none⟩ ⟨0, 0⟩ .arrow "t1").money = 10 ∧
    (buildTower ⟨100, [], witnessMap, none⟩ ⟨0, 0⟩ .arrow "t1").money = 100 - 25 ∧
    (upgradeTower ⟨100, [], witnessMap, none⟩ "nope").money = 100 ∧
    (upgradeTower ⟨100, [⟨"t1", ⟨0, 0⟩, .arrow, 3, none⟩], witnessMap, none⟩ "t1").money = 100 ∧
    (upgradeTower ⟨10, [⟨"t1", ⟨0, 0⟩, .arrow, 1, none⟩], witnessMap, none⟩ "t1").money = 10 ∧
    (sellTower ⟨100, [], witnessMap, none⟩ "nope").money = 100 ∧
    (sellTower ⟨100, [⟨"t1", ⟨0, 0⟩, .arrow, 1, none⟩], witnessMap, none⟩ "t1").money
      = 100 + (17 : ℤ) := by
  refine ⟨?_, ?_, ?_, ?_, ?_, ?_, ?_⟩
  · exact (money_conservation_spec ⟨10, [], witnessMap, none⟩ ⟨0, 0⟩ .arrow "t1").1
      (Or.inl (by norm_num [calculateTowerStatsT, towerDefOf, arrowDef,
        calculateTowerStatsD, List.range']))
  · have h := (money_conservation_spec ⟨100, [], witnessMap, none⟩ ⟨0, 0⟩ .arrow "t1").2.1
      (by norm_num [calculateTowerStatsT, towerDefOf, arrowDef, calculateTowerStatsD,
        List.range'])
      (by decide)
    rw [h]
    norm_num [calculateTowerStatsT, towerDefOf, arrowDef, calculateTowerStatsD, List.range']
  · exact (money_conservation_spec ⟨100, [], witnessMap, none⟩ ⟨0, 0⟩ .arrow
      "t1").2.2.1 "nope" (by decide)
  · exact (money_conservation_spec ⟨100, [⟨"t1", ⟨0, 0⟩, .arrow, 3, none⟩], witnessMap,
      none⟩ ⟨0, 0⟩ .arrow "t1").2.2.2.1 "t1" ⟨"t1", ⟨0, 0⟩, .arrow, 3, none⟩
      (by decide) (by decide)
  · exact (money_conservation_spec ⟨10, [⟨"t1", ⟨0, 0⟩, .arrow, 1, none⟩], witnessMap,
      none⟩ ⟨0, 0⟩ .arrow "t1").2.2.2.2.1 "t1" ⟨"t1", ⟨0, 0⟩, .arrow, 1, none⟩
      (by decide)
      (by norm_num [calculateUpgradeCostT, calculateUpgradeCost, towerKey,
        TOWER_DEFINITIONS, arrowDef])
  · exact (money_conservation_spec ⟨100, [], witnessMap, none⟩ ⟨0, 0⟩ .arrow
      "t1").2.2.2.2.2.1 "nope" (by decide)
  · have h := (money_conservation_spec ⟨100, [⟨"t1", ⟨0, 0⟩, .arrow, 1, none⟩],
      witnessMap, none⟩ ⟨0, 0⟩ .arrow "t1").2.2.2.2.2.2 "t1"
      ⟨"t1", ⟨0, 0⟩, .arrow, 1, none⟩ (by decide)
    rw [h]
    norm_num [totalInvestment, towerDefOf, arrowDef, List.range']

-- ===== Stage bookkeeping lemmas for the tick pipeline =====

/-- The short-circuit guard of `advanceTick`. -/
def shortCircuits (s : GameState) : Prop :=
  s.isPaused = true ∨ s.phase = .defeat ∨ s.phase = .victory

instance (s : GameState) : Decidable (shortCircuits s) := by
  unfold shortCircuits
  infer_instance

theorem advanceTick_of_shortCircuits (env : SimEnv) (s : GameState) (dt : ℚ)
    (h : shortCircuits s) : advanceTick env s dt = s := by
  rcases h with h | h | h <;> simp [advanceTick, h]

/-- The pipeline stages 2–4 followed by `updateWaveSpawning`/`updateGamePhase`:
the state reaching the wave-spawning stage on a non-short-circuited tick. -/
def preSpawnState (env : SimEnv) (s : GameState) (dt : ℚ) : GameState :=
  updateProjectiles env
    (updateTowers env
      (updateMobs env { s with simulationTime := s.simulationTime + dt * s.gameSpeed }
        (dt * s.gameSpeed)))
    (dt * s.gameSpeed)

theorem advanceTick_of_not_shortCircuits (env : SimEnv) (s : GameState) (dt : ℚ)
    (h : ¬ shortCircuits s) :
    advanceTick env s dt = updateGamePhase (updateWaveSpawning env (preSpawnState env s dt)) := by
  unfold shortCircuits at h
  push_neg at h
  obtain ⟨h1, h2, h3⟩ := h
  have hp : s.isPaused = false := by
    cases hb : s.isPaused
    · rfl
    · exact absurd hb h1
  simp [advanceTick, hp, h2, h3, preSpawnState]

theorem preSpawnState_waveIndex (env : SimEnv) (s : GameState) (dt : ℚ) :
    (preSpawnState env s dt).currentWaveIndex = s.currentWaveIndex := rfl

theorem preSpawnState_simTime (env : SimEnv) (s : GameState) (dt : ℚ) :
    (preSpawnState env s dt).simulationTime = s.simulationTime + dt * s.gameSpeed := rfl

theorem preSpawnState_pathCoords (env : SimEnv) (s : GameState) (dt : ℚ) :
    (preSpawnState env s dt).pathCoords = s.pathCoords := rfl

theorem preSpawnState_lives (env : SimEnv) (s : GameState) (dt : ℚ) :
    (preSpawnState env s dt).lives =
      (updateMobs env { s with simulationTime := s.simulationTime + dt * s.gameSpeed }
        (dt * s.gameSpeed)).lives := rfl

theorem updateGamePhase_waveIndex (s : GameState) :
    (updateGamePhase s).currentWaveIndex = s.currentWaveIndex := by
  unfold updateGamePhase
  split_ifs <;> rfl

theorem updateGamePhase_mobs (s : GameState) : (updateGamePhase s).mobs = s.mobs := by
  unfold updateGamePhase
  split_ifs <;> rfl

theorem updateGamePhase_lives (s : GameState) : (updateGamePhase s).lives = s.lives := by
  unfold updateGamePhase
  split_ifs <;> rfl

theorem updateWaveSpawning_lives (env : SimEnv) (s : GameState) :
    (updateWaveSpawning env s).lives = s.lives := by
  unfold updateWaveSpawning
  simp only []
  split_ifs <;> rfl

-- ===== C2 =====

/-- Claim C2: `advanceTick` passes the state through unchanged whenever
`isPaused` is set or the phase is `defeat` or `victory`; consequently the
terminal phases are absorbing — from a `victory` or `defeat` state no
sequence of further ticks changes any field of the state. -/
theorem advanceTick_terminal_spec (env : SimEnv) (s : GameState) (dt : ℚ)
    (dts : List ℚ) :
    (s.isPaused = true ∨ s.phase = .defeat ∨ s.phase = .victory →
      advanceTick env s dt = s) ∧
    (s.phase = .victory ∨ s.phase = .defeat →
      dts.foldl (fun st d => advanceTick env st d) s = s) := by
  constructor
  · exact advanceTick_of_shortCircuits env s dt
  · intro hphase
    have hstep : ∀ d, advanceTick env s d = s := fun d =>
      advanceTick_of_shortCircuits env s d (by rcases hphase with h | h <;> simp [shortCircuits, h])
    induction dts with
    | nil => rfl
    | cons d rest ih =>
      rw [List.foldl_cons, hstep d, ih]

theorem advanceTick_terminal_spec_witness :
    advanceTick ⟨fun _ _ => 0, fun _ => "", fun _ => ""⟩
        { phase := .victory, currentWaveIndex := 10, simulationTime := 200,
          isPaused := false, gameSpeed := 1, money := 50, lives := 3, mobs := [],
          towers := [], projectiles := [], pathCoords := [] } 1 =
      { phase := .victory, currentWaveIndex := 10, simulationTime := 200,
        isPaused := false, gameSpeed := 1, money := 50, lives := 3, mobs := [],
        towers := [], projectiles := [], pathCoords := [] } ∧
    List.foldl (fun st d => advanceTick ⟨fun _ _ => 0, fun _ => "", fun _ => ""⟩ st d)
        { phase := .victory, currentWaveIndex := 10, simulationTime := 200,
          isPaused := false, gameSpeed := 1, money := 50, lives := 3, mobs := [],
          towers := [], projectiles := [], pathCoords := [] } [1, 2, 3] =
      { phase := .victory, currentWaveIndex := 10, simulationTime := 200,
        isPaused := false, gameSpeed := 1, money := 50, lives := 3, mobs := [],
        towers := [], projectiles := [], pathCoords := [] } := by
  constructor
  · exact (advanceTick_terminal_spec ⟨fun _ _ => 0, fun _ => "", fun _ => ""⟩ _ 1 []).1
      (Or.inr (Or.inr rfl))
  · exact (advanceTick_terminal_spec ⟨fun _ _ => 0, fun _ => "", fun _ => ""⟩ _ 1
      [1, 2, 3]).2 (Or.inl rfl)

-- ===== C3 =====

/-- The wave-trigger condition evaluated after this tick's simulation-time
advance: `floor(simulationTime / 15) > currentWaveIndex` and fewer than 10
waves spawned. -/
def waveSpawnCond (s : GameState) (dt : ℚ) : Prop :=
  ⌊(s.simulationTime + dt * s.gameSpeed) / 15⌋ > (s.currentWaveIndex : ℤ) ∧
  s.currentWaveIndex < 10

instance (s : GameState) (dt : ℚ) : Decidable (waveSpawnCond s dt) := by
  unfold waveSpawnCond
  infer_instance

/-- Claim C3: `advanceTick` never decreases `currentWaveIndex` and raises it
by at most one per tick; on a tick that is not short-circuited it
increments it exactly when `floor(simulationTime / 15) > currentWaveIndex`
and `currentWaveIndex < 10` hold after the tick's simulation-time advance,
in which case the new wave's mobs are appended to the post-projectile mob
set and the spawning stage sets the phase to `wave-active`. -/
theorem advanceTick_wave_progression_spec (env : SimEnv) (s : GameState) (dt : ℚ) :
    s.currentWaveIndex ≤ (advanceTick env s dt).currentWaveIndex ∧
    (advanceTick env s dt).currentWaveIndex ≤ s.currentWaveIndex + 1 ∧
    (¬ shortCircuits s →
      ((advanceTick env s dt).currentWaveIndex = s.currentWaveIndex + 1 ↔
        waveSpawnCond s dt) ∧
      (waveSpawnCond s dt →
        (advanceTick env s dt).mobs =
          (preSpawnState env s dt).mobs ++
            spawnWaveMobs env s.pathCoords (s.currentWaveIndex + 1)
              (max 0.3 (1.2 - ((s.currentWaveIndex + 1 : ℕ) : ℚ) * 0.1))
              (waveMobTypes (s.currentWaveIndex + 1)) 0 0 ∧
        (spawnWave env (preSpawnState env s dt)).phase = .waveActive)) := by
  by_cases hsc : shortCircuits s
  · rw [advanceTick_of_shortCircuits env s dt hsc]
    exact ⟨le_refl _, Nat.le_succ _, fun h => absurd hsc h⟩
  · rw [advanceTick_of_not_shortCircuits env s dt hsc]
    by_cases hc : waveSpawnCond s dt
    · have hspawn : updateWaveSpawning env (preSpawnState env s dt) =
          spawnWave env (preSpawnState env s dt) := by
        unfold updateWaveSpawning
        simp only []
        exact if_pos hc
      rw [hspawn]
      refine ⟨?_, ?_, fun _ => ⟨?_, fun _ => ⟨?_, rfl⟩⟩⟩
      · rw [updateGamePhase_waveIndex]
        exact Nat.le_succ _
      · rw [updateGamePhase_waveIndex]
        exact le_refl _
      · rw [updateGamePhase_waveIndex]
        exact Iff.intro (fun _ => hc) (fun _ => rfl)
      · rw [updateGamePhase_mobs]
        rfl
    · have hnospawn : updateWaveSpawning env (preSpawnState env s dt) =
          preSpawnState env s dt := by
        unfold updateWaveSpawning
        simp only []
        exact if_neg hc
      rw [hnospawn]
      refine ⟨?_, ?_, fun _ => ⟨?_, fun h => absurd h hc⟩⟩
      · rw [updateGamePhase_waveIndex, preSpawnState_waveIndex]
      · rw [updateGamePhase_waveIndex, preSpawnState_waveIndex]
        exact Nat.le_succ _
      · rw [updateGamePhase_waveIndex, preSpawnState_waveIndex]
        simp [hc]

theorem advanceTick_wave_progression_spec_witness :
    waveSpawnCond
      { phase := .preparing, currentWaveIndex := 0, simulationTime := 20,
        isPaused := false, gameSpeed := 1, money := 0, lives := 20, mobs := [],
        towers := [], projectiles := [], pathCoords := [] } 1 ∧
    (advanceTick ⟨fun _ _ => 0, fun _ => "", fun _ => ""⟩
        { phase := .preparing, currentWaveIndex := 0, simulationTime := 20,
          isPaused := false, gameSpeed := 1, money := 0, lives := 20, mobs := [],
          towers := [], projectiles := [], pathCoords := [] } 1).currentWaveIndex
      = 0 + 1 := by
  have hcond : waveSpawnCond
      { phase := .preparing, currentWaveIndex := 0, simulationTime := 20,
        isPaused := false, gameSpeed := 1, money := 0, lives := 20, mobs := [],
        towers := [], projectiles := [], pathCoords := [] } 1 := by
    unfold waveSpawnCond
    norm_num
  have h := (advanceTick_wave_progression_spec ⟨fun _ _ => 0, fun _ => "", fun _ => ""⟩
      { phase := .preparing, currentWaveIndex := 0, simulationTime := 20,
        isPaused := false, gameSpeed := 1, money := 0, lives := 20, mobs := [],
        towers := [], projectiles := [], pathCoords := [] } 1).2.2
    (by simp [shortCircuits])
  exact ⟨hcond, h.1.mpr hcond⟩

-- ===== C4 =====

/-- A mob that first crosses the end of the path during this tick's movement
stage: already spawned (`pathProgress ≥ 0`), its moved progress reaches 1,
and its `reachedEnd` flag was still false (movement does not change the
flag). -/
def mobCrossesEnd (env : SimEnv) (pathCoords : List GridCoord) (simTime dt : ℚ)
    (mob : Mob) : Bool :=
  !decide (mob.pathProgress < 0) &&
  (decide (1 ≤ (moveSpawnedMob env pathCoords simTime dt mob).pathProgress) &&
   !(moveSpawnedMob env pathCoords simTime dt mob).reachedEnd)

/-- Number of mobs of the state that cross the end during one movement stage
of length `dt`. -/
def crossedCount (env : SimEnv) (s : GameState) (dt : ℚ) : ℕ :=
  s.mobs.countP (mobCrossesEnd env s.pathCoords s.simulationTime dt)

theorem updateMobsAux_count (env : SimEnv) (pathCoords : List GridCoord)
    (simTime dt : ℚ) (l : List Mob) :
    (updateMobsAux env pathCoords simTime dt l).2 =
      l.countP (mobCrossesEnd env pathCoords simTime dt) := by
  induction l with
  | nil => rfl
  | cons mob rest ih =>
    rw [List.countP_cons]
    by_cases h1 : mob.pathProgress < 0
    · simp [updateMobsAux, h1, mobCrossesEnd, ih]
    · by_cases h2 : 1 ≤ (moveSpawnedMob env pathCoords simTime dt mob).pathProgress ∧
          (moveSpawnedMob env pathCoords simTime dt mob).reachedEnd = false
      · simp [updateMobsAux, h1, h2, mobCrossesEnd, ih, h2.1, h2.2]
      · have hpred : mobCrossesEnd env pathCoords simTime dt mob = false := by
          by_contra hp
          rw [Bool.not_eq_false] at hp
          simp only [mobCrossesEnd, Bool.and_eq_true, Bool.not_eq_true',
            decide_eq_true_eq, decide_eq_false_iff_not] at hp
          exact h2 ⟨hp.2.1, hp.2.2⟩
        simp only [updateMobsAux, if_neg h1, if_neg h2, hpred]
        simp only [Bool.false_eq_true, if_false, Nat.add_zero]
        split_ifs <;> simp [ih]

/-- Claim C4: on a tick that is not short-circuited, `lives` becomes exactly
`max 0 (lives - number of mobs that first crossed the end this movement
stage)`; no stage increases lives, so from `0 ≤ lives` every tick yields
`0 ≤ lives' ≤ lives`. -/
theorem advanceTick_lives_spec (env : SimEnv) (s : GameState) (dt : ℚ) :
    (¬ shortCircuits s →
      (advanceTick env s dt).lives =
        max 0 (s.lives -
          (crossedCount env
            { s with simulationTime := s.simulationTime + dt * s.gameSpeed }
            (dt * s.gameSpeed) : ℤ))) ∧
    (0 ≤ s.lives →
      0 ≤ (advanceTick env s dt).lives ∧ (advanceTick env s dt).lives ≤ s.lives) := by
  have hmain : ¬ shortCircuits s →
      (advanceTick env s dt).lives =
        max 0 (s.lives -
          (crossedCount env
            { s with simulationTime := s.simulationTime + dt * s.gameSpeed }
            (dt * s.gameSpeed) : ℤ)) := by
    intro hsc
    rw [advanceTick_of_not_shortCircuits env s dt hsc, updateGamePhase_lives,
      updateWaveSpawning_lives, preSpawnState_lives]
    rw [show (updateMobs env
        { s with simulationTime := s.simulationTime + dt * s.gameSpeed }
        (dt * s.gameSpeed)).lives =
      max 0 (s.lives -
        ((updateMobsAux env s.pathCoords (s.simulationTime + dt * s.gameSpeed)
          (dt * s.gameSpeed) s.mobs).2 : ℤ)) from rfl]
    rw [updateMobsAux_count]
    rfl
  refine ⟨hmain, ?_⟩
  intro h0
  by_cases hsc : shortCircuits s
  · rw [advanceTick_of_shortCircuits env s dt hsc]
    exact ⟨h0, le_refl _⟩
  · rw [hmain hsc]
    constructor
    · exact le_max_left 0 _
    · exact max_le h0 (sub_le_self _ (Int.natCast_nonneg _))

theorem advanceTick_lives_spec_witness :
    (advanceTick ⟨fun _ _ => 0, fun _ => "", fun _ => ""⟩
        { phase := .waveActive, currentWaveIndex := 1, simulationTime := 5,
          isPaused := false, gameSpeed := 1, money := 0, lives := 20,
          mobs := [{ id := "m", pos := ⟨0, 0⟩, hp := 40, maxHp := 40, speed := 1,
                     armor := 0, type := .normal, bounty := 5, pathProgress := 1,
                     status := ⟨none, none⟩, reachedEnd := false }],
          towers := [], projectiles := [], pathCoords := [] } 1).lives = 19 ∧
    0 ≤ (advanceTick ⟨fun _ _ => 0, fun _ => "", fun _ => ""⟩
        { phase := .waveActive, currentWaveIndex := 1, simulationTime := 5,
          isPaused := false, gameSpeed := 1, money := 0, lives := 20,
          mobs := [{ id := "m", pos := ⟨0, 0⟩, hp := 40, maxHp := 40, speed := 1,
                     armor := 0, type := .normal, bounty := 5, pathProgress := 1,
                     status := ⟨none, none⟩, reachedEnd := false }],
          towers := [], projectiles := [], pathCoords := [] } 1).lives := by
  have h := advanceTick_lives_spec ⟨fun _ _ => 0, fun _ => "", fun _ => ""⟩
    { phase := .waveActive, currentWaveIndex := 1, simulationTime := 5,
      isPaused := false, gameSpeed := 1, money := 0, lives := 20,
      mobs := [{ id := "m", pos := ⟨0, 0⟩, hp := 40, maxHp := 40, speed := 1,
                 armor := 0, type := .normal, bounty := 5, pathProgress := 1,
                 status := ⟨none, none⟩, reachedEnd := false }],
      towers := [], projectiles := [], pathCoords := [] } 1
  have hmain := h.1 (by simp [shortCircuits])
  constructor
  · rw [hmain]
    norm_num [crossedCount, List.countP_cons, List.countP_nil, mobCrossesEnd,
      moveSpawnedMob, updateMobEffects, getEffectiveSpeed, calculatePathLength,
      GAME_CONFIG]
  · rw [hmain]
    exact le_max_left 0 _
